import Mathlib

/-!
Shallow embedding of `create_github_repos.py`, a script that creates a
GitHub repository and initializes a local clone by shelling out to the
`gh` and `git` CLI tools.

Modelling conventions:
* Python strings are sequences of Unicode codepoints; we embed them as
  `List Nat` (`PyStr`).  `pyStr` converts a Lean string literal to that
  representation.  All inputs the script handles are ASCII, and the
  case-mapping helpers below implement exactly the ASCII fragment of
  Python's `str.lower` / `str.title`.
* External processes are modelled by an outcome oracle (`ProcOutcome`):
  either the process ran and exited with a given code, or the launch
  itself failed at the OS level (e.g. executable not found).
* Python's three relevant return values `True` / `False` / `None`
  (a function falling off its end returns `None`) are `PyValue`.
-/

/-- Python strings as lists of Unicode codepoints. -/
abbrev PyStr := List Nat

/-- Embed a Lean string literal as a `PyStr` (list of codepoints). -/
def pyStr (s : String) : PyStr := s.toList.map Char.toNat

/-- ASCII fragment of Python's `str.lower` on a single codepoint:
uppercase letters `A`..`Z` (65..90) map to `a`..`z` (97..122). -/
def lowerChar (n : Nat) : Nat := if 65 ≤ n ∧ n ≤ 90 then n + 32 else n

/-- Python's `str.lower` over a whole string (ASCII fragment). -/
def lower (s : PyStr) : PyStr := s.map lowerChar

/-- ASCII fragment of Python's `str.title` on a single codepoint:
for a one-character string, `title` upcases a lowercase letter. -/
def titleChar (n : Nat) : Nat := if 97 ≤ n ∧ n ≤ 122 then n - 32 else n

/-- Embeds `s[0].title() + s[1:]` (line 77 of the source).  Indexing an
empty string raises `IndexError`, embedded as `none`. -/
def titleFirst : PyStr → Option PyStr
  | [] => none
  | c :: rest => some (titleChar c :: rest)

/-- Python's `str.split(".")`: split at every occurrence of `.`
(codepoint 46), keeping empty segments; the empty string yields one
empty segment. -/
def splitDot : PyStr → List PyStr
  | [] => [[]]
  | c :: rest =>
    if c = 46 then [] :: splitDot rest
    else
      match splitDot rest with
      | [] => [[c]]
      | s :: ss => (c :: s) :: ss

/-- Fixed repository-name prefix (line 16 of the source). -/
def repoPrefixStr : PyStr := pyStr "python-challenge-"

/-- Embeds `add_prefix` (lines 15-19): prepend the fixed prefix. -/
def add_prefix (repo_name : PyStr) : PyStr := repoPrefixStr ++ repo_name

/-- Possible outcomes of the source function `argument_parser` (lines 30-86): print help and
`sys.exit(1)` when `len(sys.argv) == 1`; an uncaught `IndexError`
(from `args.repo_desc[0]` on an empty description or from
`folder_name.split(".")[1]` when the folder name has no dot); or a
normal return of `(folder_name, repo_name, repo_desc, repo_visibility)`. -/
inductive ParseResult where
  | exitHelp
  | indexError
  | ok (folder_name repo_name repo_desc repo_visibility : PyStr)
deriving DecidableEq

/-- Embeds lines 71-73: `folder_name = ""`, overwritten with
`args.folder_name.lower()` when the `-f` flag was given. -/
def resolveFolder : Option PyStr → PyStr
  | some f => lower f
  | none => []

/-- Embeds lines 75-77: `repo_desc = ""`, overwritten with
`args.repo_desc[0].title() + args.repo_desc[1:]` when the `-rd` flag was
given; `none` is the `IndexError` raised on an empty description. -/
def resolveDesc : Option PyStr → Option PyStr
  | none => some []
  | some d => titleFirst d

/-- Embeds lines 79-82: `args.repo_visibility.lower()` when the `-rv`
flag was given, else `"Public".lower()`. -/
def resolveVisibility : Option PyStr → PyStr
  | some v => lower v
  | none => lower (pyStr "Public")

/-- The raw folder-name value the source `argument_parser` works from: the `-f`
argument itself, or the empty string substituted when the flag is
absent. -/
def folderOf : Option PyStr → PyStr
  | some f => f
  | none => []

/-- Embeds `argument_parser` as `parse_arguments` (lines 30-86).  `argc` is `len(sys.argv)`;
the three option arguments model the parsed `-f`, `-rd`, `-rv` flags
(`none` when the flag is absent).  Mirrors the source order: the
description is computed (and may raise) before the repo name is derived
from `folder_name.split(".")[1]` (line 84), whose out-of-range index is
the second `IndexError` source. -/
def parse_arguments (argc : Nat)
    (folder_arg repo_desc_arg repo_visibility_arg : Option PyStr) : ParseResult :=
  if argc = 1 then ParseResult.exitHelp
  else
    let folder_name := resolveFolder folder_arg
    match resolveDesc repo_desc_arg with
    | none => ParseResult.indexError
    | some repo_desc =>
      match (splitDot folder_name).get? 1 with
      | none => ParseResult.indexError
      | some seg =>
        let repo_name := add_prefix (lower seg)
        ParseResult.ok folder_name repo_name repo_desc
          (resolveVisibility repo_visibility_arg)

/-- Outcome of one attempt to launch an external process: it either ran
to completion with an exit code, or the launch itself failed at the OS
level (e.g. `FileNotFoundError`), which `subprocess` surfaces as an
exception that is not a `CalledProcessError`. -/
inductive ProcOutcome where
  | exit (code : Nat)
  | launchFailure
deriving DecidableEq

/-- The Python values `run_command` can produce: `True`, `False`, or
`None` (falling off the end of the function). -/
inductive PyValue where
  | pyTrue
  | pyFalse
  | pyNone
deriving DecidableEq

/-- Python truthiness of the three values: only `True` is truthy. -/
def truthy : PyValue → Bool
  | PyValue.pyTrue => true
  | PyValue.pyFalse => false
  | PyValue.pyNone => false

/-- Embeds `run_command` (lines 89-110).  `subprocess.run(..., check=True)`
raises `CalledProcessError` exactly when the process exits non-zero, so:
exit code 0 returns `True`; a non-zero exit is caught by the first
`except`, prints a diagnostic and returns `False`; any other exception
(an OS-level launch failure) is caught by the second `except`, prints a
diagnostic, and the function falls off its end, returning `None`.
The result pairs the returned value with whether a diagnostic was
printed.  The command list `cmd` only appears in the printed messages,
never in the control flow. -/
def run_command (cmd : List PyStr) (outcome : ProcOutcome) : PyValue × Bool :=
  match cmd, outcome with
  | _, ProcOutcome.exit 0 => (PyValue.pyTrue, false)
  | _, ProcOutcome.exit (_ + 1) => (PyValue.pyFalse, true)
  | _, ProcOutcome.launchFailure => (PyValue.pyNone, true)

/-- Command list of `is_logged_to_gh` (line 114): `gh auth status`. -/
def auth_status_command : List PyStr :=
  [pyStr "gh", pyStr "auth", pyStr "status"]

/-- Command list built by `create_gh_repo` (lines 124-134). -/
def create_gh_repo_command (repo_name repo_desc repo_visibility : PyStr) : List PyStr :=
  [pyStr "gh", pyStr "repo", pyStr "create", repo_name,
   pyStr "--" ++ repo_visibility, pyStr "--description", repo_desc,
   pyStr "--clone", pyStr "--disable-wiki"]

/-- Command list of `configure_basic_repo_settings` (lines 149-155). -/
def configure_settings_command : List PyStr :=
  [pyStr "gh", pyStr "repo", pyStr "edit",
   pyStr "--enable-projects=false", pyStr "--delete-branch-on-merge"]

/-- Command list `get_repo_cmd` of `init_repo` (lines 242-250), run via
`subprocess.check_output` rather than `run_command`. -/
def repo_view_command : List PyStr :=
  [pyStr "gh", pyStr "repo", pyStr "view", pyStr "--json",
   pyStr "owner,name", pyStr "-q",
   pyStr ".owner.login + \"/\" + .name"]

/-- Command list `git add README.md` (line 264). -/
def git_add_command : List PyStr :=
  [pyStr "git", pyStr "add", pyStr "README.md"]

/-- Command list `git commit -m "Initial commit"` (line 269). -/
def git_commit_command : List PyStr :=
  [pyStr "git", pyStr "commit", pyStr "-m", pyStr "Initial commit"]

/-- Command list `git branch -M main` (line 274). -/
def git_branch_command : List PyStr :=
  [pyStr "git", pyStr "branch", pyStr "-M", pyStr "main"]

/-- Command list `git push origin main` (line 279). -/
def git_push_command : List PyStr :=
  [pyStr "git", pyStr "push", pyStr "origin", pyStr "main"]

/-- Command list of `rename_folder` (line 295): `mv repo_name folder_name`. -/
def rename_folder_command (repo_name folder_name : PyStr) : List PyStr :=
  [pyStr "mv", repo_name, folder_name]

/-- One oracle per external-process launch of the orchestrated flow,
giving the outcome the operating system would produce for it. -/
structure Oracle where
  auth : ProcOutcome
  create : ProcOutcome
  edit : ProcOutcome
  repoView : ProcOutcome
  gitAdd : ProcOutcome
  gitCommit : ProcOutcome
  gitBranch : ProcOutcome
  gitPush : ProcOutcome
  mv : ProcOutcome
deriving DecidableEq

/-- The externally visible steps of the orchestrated flow, in program
order.  `readmeAppend` is the local file append to `README.md`;
`repoView` is the `gh repo view` lookup `init_repo` performs through
`subprocess.check_output` before touching the README. -/
inductive StepTag where
  | authCheck
  | createRepo
  | configureSettings
  | repoView
  | readmeAppend
  | gitAdd
  | gitCommit
  | branchRename
  | gitPush
  | renameFolder
deriving DecidableEq

/-- Position of each step in the program order of `main` / `init_repo`. -/
def stepIdx : StepTag → Nat
  | StepTag.authCheck => 0
  | StepTag.createRepo => 1
  | StepTag.configureSettings => 2
  | StepTag.repoView => 3
  | StepTag.readmeAppend => 4
  | StepTag.gitAdd => 5
  | StepTag.gitCommit => 6
  | StepTag.branchRename => 7
  | StepTag.gitPush => 8
  | StepTag.renameFolder => 9

/-- Embeds `init_repo` (lines 237-290).  It first runs `gh repo view`
through `subprocess.check_output`, which raises on any failure and is
not wrapped in a `try`: that uncaught exception is embedded as a `none`
result.  On success it appends to `README.md` (a local file write,
assumed to succeed) and then chains `git add`, `git commit`,
`git branch -M main`, `git push origin main` through `run_command`,
returning `False` as soon as one of them is falsy.  The first component
is the list of steps actually started, in order. -/
def init_repo (o : Oracle) : List StepTag × Option PyValue :=
  match o.repoView with
  | ProcOutcome.exit 0 =>
    if truthy (run_command git_add_command o.gitAdd).1 then
      if truthy (run_command git_commit_command o.gitCommit).1 then
        if truthy (run_command git_branch_command o.gitBranch).1 then
          if truthy (run_command git_push_command o.gitPush).1 then
            ([StepTag.repoView, StepTag.readmeAppend, StepTag.gitAdd,
              StepTag.gitCommit, StepTag.branchRename, StepTag.gitPush],
             some PyValue.pyTrue)
          else
            ([StepTag.repoView, StepTag.readmeAppend, StepTag.gitAdd,
              StepTag.gitCommit, StepTag.branchRename, StepTag.gitPush],
             some PyValue.pyFalse)
        else
          ([StepTag.repoView, StepTag.readmeAppend, StepTag.gitAdd,
            StepTag.gitCommit, StepTag.branchRename],
           some PyValue.pyFalse)
      else
        ([StepTag.repoView, StepTag.readmeAppend, StepTag.gitAdd,
          StepTag.gitCommit],
         some PyValue.pyFalse)
    else
      ([StepTag.repoView, StepTag.readmeAppend, StepTag.gitAdd],
       some PyValue.pyFalse)
  | _ => ([StepTag.repoView], none)

/-- Embeds the orchestration of `main` after argument parsing
(lines 302-325): auth check, then remote creation, then settings, then
`init_repo`, then the folder rename — each nested under the success of
the previous one.  The `mv` result only gates the final `Done` print.
Returns the ordered list of steps started and whether an uncaught
exception escaped `main`. -/
def mainSteps (folder_name repo_name repo_desc repo_visibility : PyStr)
    (o : Oracle) : List StepTag × Bool :=
  if truthy (run_command auth_status_command o.auth).1 then
    if truthy (run_command
        (create_gh_repo_command repo_name repo_desc repo_visibility) o.create).1 then
      if truthy (run_command configure_settings_command o.edit).1 then
        match init_repo o with
        | (t, none) =>
          ([StepTag.authCheck, StepTag.createRepo, StepTag.configureSettings] ++ t,
           true)
        | (t, some v) =>
          if truthy v then
            ([StepTag.authCheck, StepTag.createRepo, StepTag.configureSettings]
               ++ t ++ [StepTag.renameFolder], false)
          else
            ([StepTag.authCheck, StepTag.createRepo, StepTag.configureSettings] ++ t,
             false)
      else
        ([StepTag.authCheck, StepTag.createRepo, StepTag.configureSettings], false)
    else
      ([StepTag.authCheck, StepTag.createRepo], false)
  else
    ([StepTag.authCheck], false)

/-- How the whole script run ends: help printed and `sys.exit(code)`,
an uncaught exception, or a normal finish. -/
inductive ProgResult where
  | helpExit (code : Nat)
  | crashed
  | finished
deriving DecidableEq

/-- Embeds the whole script (`__main__`, lines 328-330, calling `main`):
parse arguments first, and only on a successful parse run the
orchestrated flow.  Pairs the final outcome with the ordered list of
steps started. -/
def script (argc : Nat) (folder_arg repo_desc_arg repo_visibility_arg : Option PyStr)
    (o : Oracle) : ProgResult × List StepTag :=
  match parse_arguments argc folder_arg repo_desc_arg repo_visibility_arg with
  | ParseResult.exitHelp => (ProgResult.helpExit 1, [])
  | ParseResult.indexError => (ProgResult.crashed, [])
  | ParseResult.ok folder_name repo_name repo_desc repo_visibility =>
    let r := mainSteps folder_name repo_name repo_desc repo_visibility o
    ((if r.2 then ProgResult.crashed else ProgResult.finished), r.1)

/-- Whether a step's own external command succeeded under the oracle:
truthiness of the `run_command` result for `run_command`-mediated steps,
success of `check_output` for the `gh repo view` lookup; the local
README append is treated as always succeeding. -/
def stepOK (o : Oracle) : StepTag → Bool
  | StepTag.authCheck => truthy (run_command [] o.auth).1
  | StepTag.createRepo => truthy (run_command [] o.create).1
  | StepTag.configureSettings => truthy (run_command [] o.edit).1
  | StepTag.repoView => decide (o.repoView = ProcOutcome.exit 0)
  | StepTag.readmeAppend => true
  | StepTag.gitAdd => truthy (run_command [] o.gitAdd).1
  | StepTag.gitCommit => truthy (run_command [] o.gitCommit).1
  | StepTag.branchRename => truthy (run_command [] o.gitBranch).1
  | StepTag.gitPush => truthy (run_command [] o.gitPush).1
  | StepTag.renameFolder => truthy (run_command [] o.mv).1

/-- Leaf JSON values occurring in the branch-protection payload. -/
inductive JLeaf where
  | jnull
  | jbool (b : Bool)
  | jint (n : Nat)
deriving DecidableEq

/-- JSON values occurring as the top-level fields of the
branch-protection payload: a leaf, or a flat object of leaves.  The
dictionary built at lines 193-200 nests exactly this far. -/
inductive JVal where
  | leaf (l : JLeaf)
  | obj (fields : List (PyStr × JLeaf))
deriving DecidableEq

/-- Embeds `protection_settings` (lines 193-200): the branch-protection
dictionary `set_branch_protection` builds, fields in insertion order. -/
def protection_settings : List (PyStr × JVal) :=
  [(pyStr "required_status_checks", JVal.leaf JLeaf.jnull),
   (pyStr "enforce_admins", JVal.leaf (JLeaf.jbool false)),
   (pyStr "required_pull_request_reviews",
    JVal.obj [(pyStr "required_approving_review_count", JLeaf.jint 1)]),
   (pyStr "restrictions", JVal.leaf JLeaf.jnull),
   (pyStr "allow_force_pushes", JVal.leaf (JLeaf.jbool false)),
   (pyStr "allow_deletions", JVal.leaf (JLeaf.jbool false))]

/-- Dictionary lookup, for reading fields off the payload. -/
def lookupField : List (PyStr × JVal) → PyStr → Option JVal
  | [], _ => none
  | (k, v) :: rest, key => if k = key then some v else lookupField rest key

/-- Decimal rendering of a natural number, as `json.dumps` prints it. -/
def natDigits (n : Nat) : PyStr := (Nat.toDigits 10 n).map Char.toNat

/-- Serialization of a leaf value, as `json.dumps` prints it:
`null`, `true` / `false`, or the decimal integer. -/
def dumpLeaf : JLeaf → PyStr
  | JLeaf.jnull => pyStr "null"
  | JLeaf.jbool true => pyStr "true"
  | JLeaf.jbool false => pyStr "false"
  | JLeaf.jint n => natDigits n

/-- Serialization of a key: `"key": ` — codepoint 34 is the double
quote, 58 the colon, 32 the space of `json.dumps`'s default `": "`
key separator.  No key of the payload needs escaping. -/
def dumpKey (k : PyStr) : PyStr := [34] ++ k ++ [34, 58, 32]

/-- Serialization of a flat object's fields, joined by `json.dumps`'s
default `", "` item separator (codepoints 44, 32). -/
def dumpLeafFields : List (PyStr × JLeaf) → PyStr
  | [] => []
  | [(k, v)] => dumpKey k ++ dumpLeaf v
  | (k, v) :: rest => dumpKey k ++ dumpLeaf v ++ [44, 32] ++ dumpLeafFields rest

/-- Serialization of a field value; codepoints 123 and 125 are the
opening and closing braces of a JSON object. -/
def dumpVal : JVal → PyStr
  | JVal.leaf l => dumpLeaf l
  | JVal.obj fs => [123] ++ dumpLeafFields fs ++ [125]

/-- Serialization of the top-level fields. -/
def dumpFields : List (PyStr × JVal) → PyStr
  | [] => []
  | [(k, v)] => dumpKey k ++ dumpVal v
  | (k, v) :: rest => dumpKey k ++ dumpVal v ++ [44, 32] ++ dumpFields rest

/-- Embeds `json.dumps(protection_settings)` (line 203) on the payload's
value domain: Python's default separators and insertion-ordered keys. -/
def json_dumps (fields : List (PyStr × JVal)) : PyStr :=
  [123] ++ dumpFields fields ++ [125]

/-! Helper lemmas about the string model. -/

/-- Lowercasing a codepoint yields the dot (46) only for the dot
itself: ASCII uppercase letters lower into 97..122. -/
theorem lowerChar_eq_dot_iff (n : Nat) : lowerChar n = 46 ↔ n = 46 := by
  unfold lowerChar
  split <;> omega

/-- Lowercasing cannot introduce a dot. -/
theorem not_mem_lower_dot {s : PyStr} (h : 46 ∉ s) : 46 ∉ lower s := by
  intro hmem
  rcases List.mem_map.1 hmem with ⟨a, ha, hla⟩
  have : a = 46 := (lowerChar_eq_dot_iff a).1 hla
  subst this
  exact h ha

/-- `split(".")` of a dot-free string is the one-segment list. -/
theorem splitDot_no_dot {s : PyStr} (h : 46 ∉ s) : splitDot s = [s] := by
  induction s with
  | nil => rfl
  | cons c rest ih =>
    have hc : ¬(c = 46) := fun hc => h (hc ▸ List.mem_cons_self c rest)
    have hr : (46 : Nat) ∉ rest := fun hm => h (List.mem_cons_of_mem c hm)
    simp [splitDot, hc, ih hr]

/-- `split(".")` peels off a dot-free first segment at the first dot. -/
theorem splitDot_append_dot (x y : PyStr) (hx : 46 ∉ x) :
    splitDot (x ++ 46 :: y) = x :: splitDot y := by
  induction x with
  | nil => simp [splitDot]
  | cons c rest ih =>
    have hc : ¬(c = 46) := fun hc => hx (hc ▸ List.mem_cons_self c rest)
    have hr : (46 : Nat) ∉ rest := fun hm => hx (List.mem_cons_of_mem c hm)
    simp [splitDot, hc, ih hr]

/-- The dot codepoint is fixed by lowercasing. -/
theorem lowerChar_dot : lowerChar 46 = 46 := rfl

/-- Lowercasing distributes over the first-dot decomposition. -/
theorem lower_append_dot (x y : PyStr) :
    lower (x ++ 46 :: y) = lower x ++ 46 :: lower y := by
  simp [lower, lowerChar_dot]

/-- Lowercasing a codepoint is idempotent. -/
theorem lowerChar_lowerChar (n : Nat) : lowerChar (lowerChar n) = lowerChar n := by
  by_cases h : 65 ≤ n ∧ n ≤ 90
  · simp only [lowerChar, if_pos h]
    rw [if_neg (by omega)]
  · simp [lowerChar, h]

/-- Lowercasing a string is idempotent. -/
theorem lower_lower (s : PyStr) : lower (lower s) = lower s := by
  induction s with
  | nil => rfl
  | cons c rest ih =>
    simp [lower, lowerChar_lowerChar, ih]

/-- The second dot-delimited segment of the lowered folder name
`x.y` (with `x`, `y` dot-free) is the lowered `y`. -/
theorem folder_split_second (x y : PyStr) (hx : 46 ∉ x) (hy : 46 ∉ y) :
    (splitDot (lower (x ++ 46 :: y))).get? 1 = some (lower y) := by
  rw [lower_append_dot, splitDot_append_dot _ _ (not_mem_lower_dot hx),
      splitDot_no_dot (not_mem_lower_dot hy)]
  rfl

/-- The truthiness of a `run_command` result does not depend on the
command list, only on the outcome: truthy exactly at exit code 0. -/
theorem truthy_run_command (cmd : List PyStr) (out : ProcOutcome) :
    truthy (run_command cmd out).1 = decide (out = ProcOutcome.exit 0) := by
  cases out with
  | exit code => cases code <;> simp [run_command, truthy]
  | launchFailure => simp [run_command, truthy]


/-! Claim theorems. -/

/-- Claim C3: `run_command` returns `False` whenever the launched
process exits with a non-zero exit code, and returns `True` only when
the process exits with code 0 (any other outcome, including an OS-level
launch failure, does not produce `True`). -/
theorem run_command_exit_semantics (cmd : List PyStr) (o : ProcOutcome) :
    (∀ c, c ≠ 0 → (run_command cmd (ProcOutcome.exit c)).1 = PyValue.pyFalse)
    ∧ ((run_command cmd o).1 = PyValue.pyTrue ↔ o = ProcOutcome.exit 0) := by
  constructor
  · intro c hc
    cases c with
    | zero => exact absurd rfl hc
    | succ n => rfl
  · cases o with
    | exit code => cases code <;> simp [run_command]
    | launchFailure => simp [run_command]

/-- Witness for C3 at the concrete command `["gh"]`: exit code 2 yields
`False`, and exit code 0 yields `True`. -/
theorem run_command_exit_semantics_witness :
    (run_command [pyStr "gh"] (ProcOutcome.exit 2)).1 = PyValue.pyFalse
    ∧ (run_command [pyStr "gh"] (ProcOutcome.exit 0)).1 = PyValue.pyTrue :=
  ⟨(run_command_exit_semantics [pyStr "gh"] (ProcOutcome.exit 0)).1 2 (by decide),
   ((run_command_exit_semantics [pyStr "gh"] (ProcOutcome.exit 0)).2).2 rfl⟩

/-- Counterexample to claim C4: on an OS-level launch failure (an
exception other than `CalledProcessError`), `run_command` does not
return `False` — the second `except` branch prints and falls off the
end of the function, returning `None`. -/
theorem run_command_launch_failure_not_pyFalse :
    (run_command [pyStr "mv"] ProcOutcome.launchFailure).1 = PyValue.pyNone
    ∧ PyValue.pyNone ≠ PyValue.pyFalse := by
  exact ⟨rfl, by decide⟩

/-- Amended claim C4: when the command suffers an OS-level launch
failure (an exception other than a non-zero-exit `CalledProcessError`),
`run_command` prints a diagnostic and returns `None` — an implicit
return that is falsy to its callers but is not the boolean `False`. -/
theorem run_command_launch_failure_returns_none (cmd : List PyStr) :
    run_command cmd ProcOutcome.launchFailure = (PyValue.pyNone, true)
    ∧ truthy PyValue.pyNone = false :=
  ⟨rfl, rfl⟩

/-- Claim C7: invoking the script with `-f "sandbox.two-sum"
-rd "two sum problem" -rv private` yields the derived repo name
`python-challenge-two-sum`, description `Two sum problem` and
visibility `private`, and `create_gh_repo` builds exactly the command
`gh repo create python-challenge-two-sum --private --description
"Two sum problem" --clone --disable-wiki`. -/
theorem end_to_end_two_sum :
    parse_arguments 7 (some (pyStr "sandbox.two-sum"))
        (some (pyStr "two sum problem")) (some (pyStr "private"))
      = ParseResult.ok (pyStr "sandbox.two-sum")
          (pyStr "python-challenge-two-sum") (pyStr "Two sum problem")
          (pyStr "private")
    ∧ create_gh_repo_command (pyStr "python-challenge-two-sum")
        (pyStr "Two sum problem") (pyStr "private")
      = [pyStr "gh", pyStr "repo", pyStr "create",
         pyStr "python-challenge-two-sum", pyStr "--private",
         pyStr "--description", pyStr "Two sum problem",
         pyStr "--clone", pyStr "--disable-wiki"] := by
  exact ⟨by decide, by decide⟩

/-- Claim C9: invoked with no CLI arguments (`len(sys.argv) == 1`, no
flags), the script prints the help text and exits with code 1, and no
external command is started, whatever the process oracle would answer. -/
theorem no_arguments_help_exit (o : Oracle) :
    script 1 none none none o = (ProgResult.helpExit 1, []) := rfl

/-- Counterexample to claim C10: the record `set_branch_protection`
builds sets `enforce_admins` to `false` (line 195).  In the GitHub
branch-protection API `enforce_admins: false` means the protection
rules are NOT enforced for administrators — admins are exempt.  The
claim's "admins not exempt from enforcement" would require the field
to be `true`, and it is not. -/
theorem enforce_admins_false_admins_exempt :
    lookupField protection_settings (pyStr "enforce_admins")
      = some (JVal.leaf (JLeaf.jbool false))
    ∧ lookupField protection_settings (pyStr "enforce_admins")
      ≠ some (JVal.leaf (JLeaf.jbool true)) := by
  exact ⟨by decide, by decide⟩

/-- Amended claim C10: the protection-settings record
`set_branch_protection` builds has no required status checks, a
required approving review count of 1, force pushes disallowed and
deletions disallowed, but admins ARE exempt from enforcement
(`enforce_admins` is `false`); serialized to JSON it is exactly the
text `json.dumps` produces for it. -/
theorem branch_protection_payload_admins_exempt :
    lookupField protection_settings (pyStr "required_status_checks")
      = some (JVal.leaf JLeaf.jnull)
    ∧ lookupField protection_settings (pyStr "required_pull_request_reviews")
      = some (JVal.obj [(pyStr "required_approving_review_count", JLeaf.jint 1)])
    ∧ lookupField protection_settings (pyStr "allow_force_pushes")
      = some (JVal.leaf (JLeaf.jbool false))
    ∧ lookupField protection_settings (pyStr "allow_deletions")
      = some (JVal.leaf (JLeaf.jbool false))
    ∧ lookupField protection_settings (pyStr "enforce_admins")
      = some (JVal.leaf (JLeaf.jbool false))
    ∧ json_dumps protection_settings
      = pyStr "\x7b\"required_status_checks\": null, \"enforce_admins\": false, \"required_pull_request_reviews\": \x7b\"required_approving_review_count\": 1\x7d, \"restrictions\": null, \"allow_force_pushes\": false, \"allow_deletions\": false\x7d" := by
  refine ⟨by decide, by decide, by decide, by decide, by decide, ?_⟩
  set_option maxRecDepth 4000 in decide

/-- Helper: on a folder argument of the form `x.y` (with `x`, `y`
dot-free) and a description resolving without an `IndexError`,
`parse_arguments` returns normally, with the lowered folder name, the
prefixed lowered second segment as repo name, the resolved description
and the resolved visibility. -/
theorem parse_arguments_ok_form (argc : Nat) (x y : PyStr)
    (repo_desc_arg repo_visibility_arg : Option PyStr) (rd : PyStr)
    (hargc : argc ≠ 1) (hx : 46 ∉ x) (hy : 46 ∉ y)
    (hrd : resolveDesc repo_desc_arg = some rd) :
    parse_arguments argc (some (x ++ 46 :: y)) repo_desc_arg repo_visibility_arg
      = ParseResult.ok (lower (x ++ 46 :: y)) (repoPrefixStr ++ lower y) rd
          (resolveVisibility repo_visibility_arg) := by
  unfold parse_arguments
  rw [if_neg hargc]
  simp only [resolveFolder, hrd, folder_split_second x y hx hy, add_prefix,
    lower_lower]

/-- Claim C1: for every folder name of the form `x.y` passed via
`-f`/`--folder_name` (and any other flags that do not themselves crash
the parser), `parse_arguments` returns a derived repo name equal to
`"python-challenge-" + y.lower()`: the fixed prefix prepended to the
lowercased second dot-delimited segment. -/
theorem derived_repo_name_of_dotted_folder (argc : Nat) (x y : PyStr)
    (repo_desc_arg repo_visibility_arg : Option PyStr)
    (hargc : argc ≠ 1) (hx : 46 ∉ x) (hy : 46 ∉ y)
    (hd : repo_desc_arg ≠ some []) :
    ∃ repo_desc repo_visibility,
      parse_arguments argc (some (x ++ 46 :: y)) repo_desc_arg repo_visibility_arg
        = ParseResult.ok (lower (x ++ 46 :: y))
            (pyStr "python-challenge-" ++ lower y) repo_desc repo_visibility := by
  obtain ⟨rd, hrd⟩ : ∃ rd, resolveDesc repo_desc_arg = some rd := by
    cases repo_desc_arg with
    | none => exact ⟨[], rfl⟩
    | some d =>
      cases d with
      | nil => exact absurd rfl hd
      | cons c rest => exact ⟨titleChar c :: rest, rfl⟩
  exact ⟨rd, resolveVisibility repo_visibility_arg,
    parse_arguments_ok_form argc x y repo_desc_arg repo_visibility_arg rd
      hargc hx hy hrd⟩

/-- Witness for C1 at the folder name `sandbox.two-sum`: the derived
repo name is the prefix plus the lowered second segment. -/
theorem derived_repo_name_of_dotted_folder_witness :
    ∃ repo_desc repo_visibility,
      parse_arguments 3 (some (pyStr "sandbox" ++ 46 :: pyStr "two-sum"))
          (some (pyStr "demo")) none
        = ParseResult.ok (lower (pyStr "sandbox" ++ 46 :: pyStr "two-sum"))
            (pyStr "python-challenge-" ++ lower (pyStr "two-sum"))
            repo_desc repo_visibility :=
  derived_repo_name_of_dotted_folder 3 (pyStr "sandbox") (pyStr "two-sum")
    (some (pyStr "demo")) none (by decide) (by decide) (by decide) (by decide)

/-- Counterexample to claim C6: the empty string is a description that
can be passed via `-rd`, and on it `parse_arguments` does not return a
transformed description at all — `args.repo_desc[0]` raises an uncaught
`IndexError`. -/
theorem empty_description_index_error :
    parse_arguments 5 (some (pyStr "sandbox.two-sum")) (some []) none
      = ParseResult.indexError := rfl

/-- Amended claim C6: for every NONEMPTY description passed via
`-rd`/`--repo_desc` (on an invocation whose folder name parses), the
description returned by `parse_arguments` equals the input with only
its first character upper-cased and all remaining characters unchanged;
an empty description instead crashes with an uncaught `IndexError`. -/
theorem description_title_first_amended (argc : Nat) (x y : PyStr)
    (c : Nat) (rest : PyStr) (repo_visibility_arg : Option PyStr)
    (hargc : argc ≠ 1) (hx : 46 ∉ x) (hy : 46 ∉ y) :
    (∃ folder_name repo_name repo_visibility,
      parse_arguments argc (some (x ++ 46 :: y)) (some (c :: rest))
          repo_visibility_arg
        = ParseResult.ok folder_name repo_name (titleChar c :: rest)
            repo_visibility)
    ∧ parse_arguments argc (some (x ++ 46 :: y)) (some []) repo_visibility_arg
      = ParseResult.indexError := by
  constructor
  · exact ⟨lower (x ++ 46 :: y), repoPrefixStr ++ lower y,
      resolveVisibility repo_visibility_arg,
      parse_arguments_ok_form argc x y (some (c :: rest)) repo_visibility_arg
        (titleChar c :: rest) hargc hx hy rfl⟩
  · unfold parse_arguments
    rw [if_neg hargc]
    rfl

/-- Witness for the amended C6: description `two sum problem` on folder
`sandbox.two-sum` comes back as `Two sum problem`. -/
theorem description_title_first_amended_witness :
    (∃ folder_name repo_name repo_visibility,
      parse_arguments 7 (some (pyStr "sandbox" ++ 46 :: pyStr "two-sum"))
          (some (116 :: pyStr "wo sum problem")) (some (pyStr "private"))
        = ParseResult.ok folder_name repo_name
            (titleChar 116 :: pyStr "wo sum problem") repo_visibility)
    ∧ parse_arguments 7 (some (pyStr "sandbox" ++ 46 :: pyStr "two-sum"))
        (some []) (some (pyStr "private"))
      = ParseResult.indexError :=
  description_title_first_amended 7 (pyStr "sandbox") (pyStr "two-sum")
    116 (pyStr "wo sum problem") (some (pyStr "private"))
    (by decide) (by decide) (by decide)

/-- Claim C8: for every folder-name argument without a dot — including
the empty string substituted when `-f` is omitted while other flags are
present — `parse_arguments` hits an uncaught `IndexError` at
`folder_name.split(".")[1]` (or already at `args.repo_desc[0]`), so the
script crashes with no external command started, whatever the process
oracle would answer. -/
theorem no_dot_folder_index_error (argc : Nat)
    (folder_arg repo_desc_arg repo_visibility_arg : Option PyStr) (o : Oracle)
    (hargc : argc ≠ 1) (hdot : 46 ∉ folderOf folder_arg) :
    parse_arguments argc folder_arg repo_desc_arg repo_visibility_arg
      = ParseResult.indexError
    ∧ script argc folder_arg repo_desc_arg repo_visibility_arg o
      = (ProgResult.crashed, []) := by
  have h46 : 46 ∉ resolveFolder folder_arg := by
    cases folder_arg with
    | none => simp [resolveFolder]
    | some f => exact not_mem_lower_dot hdot
  have hsplit : (splitDot (resolveFolder folder_arg)).get? 1 = none := by
    rw [splitDot_no_dot h46]
    rfl
  have hparse : parse_arguments argc folder_arg repo_desc_arg repo_visibility_arg
      = ParseResult.indexError := by
    unfold parse_arguments
    rw [if_neg hargc]
    cases hdd : resolveDesc repo_desc_arg with
    | none => simp only [hdd]
    | some rd => simp only [hdd, hsplit]
  refine ⟨hparse, ?_⟩
  simp [script, hparse]

/-- Witness for C8 at the dot-free folder name `sandbox` with all
external commands poised to succeed: the parse crashes and the script
runs nothing. -/
theorem no_dot_folder_index_error_witness :
    parse_arguments 3 (some (pyStr "sandbox")) none none
      = ParseResult.indexError
    ∧ script 3 (some (pyStr "sandbox")) none none
        ⟨ProcOutcome.exit 0, ProcOutcome.exit 0, ProcOutcome.exit 0,
         ProcOutcome.exit 0, ProcOutcome.exit 0, ProcOutcome.exit 0,
         ProcOutcome.exit 0, ProcOutcome.exit 0, ProcOutcome.exit 0⟩
      = (ProgResult.crashed, []) :=
  no_dot_folder_index_error 3 (some (pyStr "sandbox")) none none
    ⟨ProcOutcome.exit 0, ProcOutcome.exit 0, ProcOutcome.exit 0,
     ProcOutcome.exit 0, ProcOutcome.exit 0, ProcOutcome.exit 0,
     ProcOutcome.exit 0, ProcOutcome.exit 0, ProcOutcome.exit 0⟩
    (by decide) (by decide)

/-- Evaluation lemma: `True` is truthy. -/
theorem truthy_pyTrue : truthy PyValue.pyTrue = true := rfl

/-- Evaluation lemma: `False` is falsy. -/
theorem truthy_pyFalse : truthy PyValue.pyFalse = false := rfl

/-- Evaluation lemma: `None` is falsy. -/
theorem truthy_pyNone : truthy PyValue.pyNone = false := rfl

/-- Claim C2: the orchestrator never starts a later step of the
sequence auth check → create remote repo → configure settings →
init local repo (repo view, readme, add, commit, branch rename, push) →
rename folder after an earlier step has returned a falsy result: a step
appears in the executed trace only if every step ordered before it
succeeded. -/
theorem orchestrator_fail_fast
    (folder_name repo_name repo_desc repo_visibility : PyStr)
    (o : Oracle) (a b : StepTag)
    (hab : stepIdx a < stepIdx b)
    (hb : b ∈ (mainSteps folder_name repo_name repo_desc repo_visibility o).1) :
    stepOK o a = true := by
  obtain ⟨oa, oc, oe, orv, oga, ogc, ogb, ogp, omv⟩ := o
  by_cases hA : oa = ProcOutcome.exit 0
  case neg =>
    simp [mainSteps, truthy_run_command, hA] at hb
    subst hb
    cases a <;> simp [stepIdx] at hab
  case pos =>
  by_cases hB : oc = ProcOutcome.exit 0
  case neg =>
    simp [mainSteps, truthy_run_command, hA, hB] at hb
    rcases hb with rfl | rfl <;> cases a <;>
      simp_all [stepOK, stepIdx, truthy_run_command]
  case pos =>
  by_cases hC : oe = ProcOutcome.exit 0
  case neg =>
    simp [mainSteps, truthy_run_command, hA, hB, hC] at hb
    rcases hb with rfl | rfl | rfl <;> cases a <;>
      simp_all [stepOK, stepIdx, truthy_run_command]
  case pos =>
  cases orv with
  | launchFailure =>
    simp [mainSteps, init_repo, truthy_run_command, hA, hB, hC] at hb
    rcases hb with rfl | rfl | rfl | rfl <;> cases a <;>
      simp_all [stepOK, stepIdx, truthy_run_command]
  | exit code =>
    cases code with
    | succ n =>
      simp [mainSteps, init_repo, truthy_run_command, hA, hB, hC] at hb
      rcases hb with rfl | rfl | rfl | rfl <;> cases a <;>
        simp_all [stepOK, stepIdx, truthy_run_command]
    | zero =>
      by_cases hE : oga = ProcOutcome.exit 0
      case neg =>
        simp [mainSteps, init_repo, truthy_run_command, truthy_pyTrue, truthy_pyFalse, hA, hB, hC,
          hE] at hb
        rcases hb with rfl | rfl | rfl | rfl | rfl | rfl <;> cases a <;>
          simp_all [stepOK, stepIdx, truthy_run_command]
      case pos =>
      by_cases hF : ogc = ProcOutcome.exit 0
      case neg =>
        simp [mainSteps, init_repo, truthy_run_command, truthy_pyTrue, truthy_pyFalse, hA, hB, hC,
          hE, hF] at hb
        rcases hb with rfl | rfl | rfl | rfl | rfl | rfl | rfl <;> cases a <;>
          simp_all [stepOK, stepIdx, truthy_run_command]
      case pos =>
      by_cases hG : ogb = ProcOutcome.exit 0
      case neg =>
        simp [mainSteps, init_repo, truthy_run_command, truthy_pyTrue, truthy_pyFalse, hA, hB, hC,
          hE, hF, hG] at hb
        rcases hb with rfl | rfl | rfl | rfl | rfl | rfl | rfl | rfl <;>
          cases a <;> simp_all [stepOK, stepIdx, truthy_run_command]
      case pos =>
      by_cases hH : ogp = ProcOutcome.exit 0
      case neg =>
        simp [mainSteps, init_repo, truthy_run_command, truthy_pyTrue, truthy_pyFalse, hA, hB, hC,
          hE, hF, hG, hH] at hb
        rcases hb with rfl | rfl | rfl | rfl | rfl | rfl | rfl | rfl | rfl <;>
          cases a <;> simp_all [stepOK, stepIdx, truthy_run_command]
      case pos =>
        simp [mainSteps, init_repo, truthy_run_command, truthy_pyTrue, truthy_pyFalse, hA, hB, hC,
          hE, hF, hG, hH] at hb
        rcases hb with rfl | rfl | rfl | rfl | rfl | rfl | rfl | rfl | rfl | rfl
          <;> cases a <;> simp_all [stepOK, stepIdx, truthy_run_command]

/-- Witness for C2 with every external command succeeding: the final
step (the folder rename) is reached, and the first step's command
indeed succeeded. -/
theorem orchestrator_fail_fast_witness :
    StepTag.renameFolder ∈
      (mainSteps (pyStr "sandbox.two-sum") (pyStr "python-challenge-two-sum")
        (pyStr "Two sum problem") (pyStr "private")
        ⟨ProcOutcome.exit 0, ProcOutcome.exit 0, ProcOutcome.exit 0,
         ProcOutcome.exit 0, ProcOutcome.exit 0, ProcOutcome.exit 0,
         ProcOutcome.exit 0, ProcOutcome.exit 0, ProcOutcome.exit 0⟩).1
    ∧ stepOK
        ⟨ProcOutcome.exit 0, ProcOutcome.exit 0, ProcOutcome.exit 0,
         ProcOutcome.exit 0, ProcOutcome.exit 0, ProcOutcome.exit 0,
         ProcOutcome.exit 0, ProcOutcome.exit 0, ProcOutcome.exit 0⟩
        StepTag.authCheck = true :=
  ⟨by decide,
   orchestrator_fail_fast (pyStr "sandbox.two-sum")
     (pyStr "python-challenge-two-sum") (pyStr "Two sum problem")
     (pyStr "private")
     ⟨ProcOutcome.exit 0, ProcOutcome.exit 0, ProcOutcome.exit 0,
      ProcOutcome.exit 0, ProcOutcome.exit 0, ProcOutcome.exit 0,
      ProcOutcome.exit 0, ProcOutcome.exit 0, ProcOutcome.exit 0⟩
     StepTag.authCheck StepTag.renameFolder (by decide) (by decide)⟩

/-- Counterexample to claim C5: with the auth check, repo creation and
settings steps succeeding and the `gh repo view` lookup of `init_repo`
exiting non-zero, `main` ends with an uncaught exception (second
component `true`): that external command failure is not caught at the
`run_command` boundary, because `init_repo` launches it through
`subprocess.check_output` with no surrounding `try`. -/
theorem repo_view_failure_escapes_main :
    mainSteps (pyStr "sandbox.two-sum") (pyStr "python-challenge-two-sum")
        (pyStr "Two sum problem") (pyStr "private")
        ⟨ProcOutcome.exit 0, ProcOutcome.exit 0, ProcOutcome.exit 0,
         ProcOutcome.exit 1, ProcOutcome.exit 0, ProcOutcome.exit 0,
         ProcOutcome.exit 0, ProcOutcome.exit 0, ProcOutcome.exit 0⟩
      = ([StepTag.authCheck, StepTag.createRepo, StepTag.configureSettings,
          StepTag.repoView], true) := by
  decide

/-- Amended claim C5: every failure of an external command launched
through `run_command` is caught there, logged, and converted to a value
that halts the pipeline without an exception; the one exception to the
rule is the `gh repo view` lookup inside `init_repo`, which runs through
`subprocess.check_output` outside `run_command` — an uncaught exception
escapes `main` exactly when the auth check, the repo creation and the
settings step succeed and that lookup fails. -/
theorem main_uncaught_iff_repo_view_failure
    (folder_name repo_name repo_desc repo_visibility : PyStr) (o : Oracle) :
    (mainSteps folder_name repo_name repo_desc repo_visibility o).2 = true
      ↔ (o.auth = ProcOutcome.exit 0 ∧ o.create = ProcOutcome.exit 0
         ∧ o.edit = ProcOutcome.exit 0 ∧ o.repoView ≠ ProcOutcome.exit 0) := by
  obtain ⟨oa, oc, oe, orv, oga, ogc, ogb, ogp, omv⟩ := o
  cases orv with
  | launchFailure =>
    by_cases hA : oa = ProcOutcome.exit 0 <;>
    by_cases hB : oc = ProcOutcome.exit 0 <;>
    by_cases hC : oe = ProcOutcome.exit 0 <;>
    simp [mainSteps, init_repo, truthy_run_command, hA, hB, hC]
  | exit code =>
    cases code with
    | succ n =>
      by_cases hA : oa = ProcOutcome.exit 0 <;>
      by_cases hB : oc = ProcOutcome.exit 0 <;>
      by_cases hC : oe = ProcOutcome.exit 0 <;>
      simp [mainSteps, init_repo, truthy_run_command, hA, hB, hC]
    | zero =>
      by_cases hA : oa = ProcOutcome.exit 0 <;>
      by_cases hB : oc = ProcOutcome.exit 0 <;>
      by_cases hC : oe = ProcOutcome.exit 0 <;>
      by_cases hE : oga = ProcOutcome.exit 0 <;>
      by_cases hF : ogc = ProcOutcome.exit 0 <;>
      by_cases hG : ogb = ProcOutcome.exit 0 <;>
      by_cases hH : ogp = ProcOutcome.exit 0 <;>
      simp [mainSteps, init_repo, truthy_run_command, truthy_pyTrue, truthy_pyFalse, hA, hB, hC,
        hE, hF, hG, hH]
